import Mathlib

/-!
Shallow embedding of the `movement` repository's core: the `MoveAccessor`
(src/movement/move_accessor.py), the sample-data fetcher
(src/movement/sample_data.py), and the filtering module exercised by
src/tests/test_unit/test_filtering.py. Pure functions of the Python source
become Lean functions; Python exceptions become explicit outcome values;
the dataset object threaded through accessor calls is passed explicitly so
that mutation (or its absence) is visible in the embedding.
-/

namespace Movement

/-- Names of the expected dimensions in the dataset
(`MoveAccessor.dim_names` in move_accessor.py). -/
def dim_names : List String := ["time", "individuals", "keypoints", "space"]

/-- Names of the expected data variables in the dataset
(`MoveAccessor.var_names` in move_accessor.py). -/
def var_names : List String := ["position", "confidence"]

/-- The arrays and coordinate labels that `validate` extracts from the
dataset and hands to `ValidPosesDataset`: the shapes of the position and
confidence arrays and the individual/keypoint name labels. -/
structure PoseArrays where
  posShape : List Nat
  confShape : List Nat
  individual_names : List String
  keypoint_names : List String
deriving DecidableEq, Repr

/-- An xarray Dataset as the accessor sees it: its dimension names, its
data-variable names, the `fps` and `source_software` metadata attributes
(read with `attrs.get(..., None)` in the source), and the pose arrays. -/
structure Dataset where
  dims : List String
  data_vars : List String
  fps : Option Int
  source_software : Option String
  pose : PoseArrays
deriving DecidableEq, Repr

/-- A violated validation constraint (the exception raised inside the
`try` block of `MoveAccessor.validate`, before wrapping). -/
inductive VErr where
  | missingDims (names : List String)
  | missingVars (names : List String)
  | badPositionNdim (ndim : Nat)
  | badConfidenceNdim (ndim : Nat)
  | shapeMismatch (which : String)
  | labelsNotUnique (which : String)
  | badFps (fps : Int)
  | badSourceSoftware (s : String)
deriving DecidableEq, Repr

/-- The wrapped error `MoveAccessor.validate` raises to its caller:
`raise ValueError(error_msg) from e` keeps one caller-visible message and
the original exception as the cause. -/
structure WrappedErr where
  msg : String
  cause : VErr
deriving DecidableEq, Repr

/-- The single caller-visible message of a failed `validate`. -/
def invalid_poses_msg : String := "The dataset does not contain valid poses."

/-- First error in a list of check outcomes (the first raised exception in a
sequence of Python checks). -/
def firstErr : List (Option VErr) → Option VErr
  | [] => none
  | some e :: _ => some e
  | none :: rest => firstErr rest

/-- Recognized source-software values (the loaders dispatched on in
sample_data.py). -/
def recognized_software : List String := ["SLEAP", "DeepLabCut", "LightningPose"]

/-- Fps constraint of the pose schema: if present it must be positive. -/
def checkFps : Option Int → Option VErr
  | some f => if f ≤ 0 then some (VErr.badFps f) else none
  | none => none

/-- Source-software constraint of the pose schema: if present it must belong
to the recognized set. -/
def checkSoftware : Option String → Option VErr
  | some v => if v ∈ recognized_software then none else some (VErr.badSourceSoftware v)
  | none => none

/-- Modelled from the spec: `ValidPosesDataset` (movement/io/validators.py is
not under src/; only its caller `MoveAccessor.validate` is). Per the spec's
Schema Validator contract it verifies, in order, that the position array has
exactly 4 axes and the confidence array exactly 3 matching
(time, individuals, keypoints), that label counts match the corresponding
axis lengths and are unique, that fps (if present) is a positive number and
that source_software (if present) belongs to a recognized set; the first
violated constraint is the exception raised. -/
def ValidPosesDataset (ds : Dataset) : Option VErr :=
  firstErr [
    if ds.pose.posShape.length ≠ 4 then some (VErr.badPositionNdim ds.pose.posShape.length) else none,
    if ds.pose.confShape.length ≠ 3 then some (VErr.badConfidenceNdim ds.pose.confShape.length) else none,
    if ds.pose.confShape ≠ ds.pose.posShape.take 3 then some (VErr.shapeMismatch "confidence") else none,
    if ds.pose.individual_names.length ≠ ds.pose.posShape.getD 1 0 then some (VErr.shapeMismatch "individuals") else none,
    if ds.pose.keypoint_names.length ≠ ds.pose.posShape.getD 2 0 then some (VErr.shapeMismatch "keypoints") else none,
    if ¬ ds.pose.individual_names.Nodup then some (VErr.labelsNotUnique "individuals") else none,
    if ¬ ds.pose.keypoint_names.Nodup then some (VErr.labelsNotUnique "keypoints") else none,
    checkFps ds.fps,
    checkSoftware ds.source_software]

/-- The required dimensions absent from the dataset
(`set(self.dim_names) - set(self._obj.dims)` in `validate`). -/
def missing_dims (ds : Dataset) : List String :=
  dim_names.filter (fun d => decide (d ∉ ds.dims))

/-- The required data variables absent from the dataset
(`set(self.var_names) - set(self._obj.data_vars)` in `validate`). -/
def missing_vars (ds : Dataset) : List String :=
  var_names.filter (fun v => decide (v ∉ ds.data_vars))

/-- `MoveAccessor.validate`, parametrized by the pose-schema check it runs
after the presence checks (the check is what extracts the position and
confidence fields); `none` models a validate call that returns nothing. -/
def validateWith (check : Dataset → Option VErr) (ds : Dataset) : Option WrappedErr :=
  if missing_dims ds ≠ [] then
    some ⟨invalid_poses_msg, VErr.missingDims (missing_dims ds)⟩
  else if missing_vars ds ≠ [] then
    some ⟨invalid_poses_msg, VErr.missingVars (missing_vars ds)⟩
  else
    match check ds with
    | some e => some ⟨invalid_poses_msg, e⟩
    | none => none

/-- `MoveAccessor.validate` as written in the source: presence checks, then
the `ValidPosesDataset` construction, with every raised exception wrapped
into the one `ValueError` whose cause is the original exception. -/
def validate (ds : Dataset) : Option WrappedErr := validateWith ValidPosesDataset ds

/-- Outcome of an attribute access on the accessor (what `__getattr__`
produces: either the local closure `method`, or an exception escaping the
lookup itself). -/
inductive AttrOutcome where
  | callable (name : String)
  | accessError (msg : String)
deriving DecidableEq, Repr

/-- `MoveAccessor.__getattr__`: its body only defines the closure `method`
over the requested name and returns it. -/
def moveGetattr (name : String) : AttrOutcome := AttrOutcome.callable name

/-- Names the kinematics module defines. Modelled from the spec: the
kinematics module (movement/analysis/kinematics.py) is not under src/; the
spec names displacement, velocity and acceleration as the derivable
quantities, reached through `compute_`-prefixed functions. -/
def kinematics_names : List String :=
  ["compute_displacement", "compute_velocity", "compute_acceleration"]

/-- A kinematic array computed from the position data. Modelled from the
spec: the numeric content of the kinematics functions is not under src/ and
no claim depends on it, so the value is the tag of which function produced
it from which pose arrays. -/
inductive KVal where
  | computed (name : String) (pose : PoseArrays)
deriving DecidableEq, Repr

/-- `getattr(kinematics, name)(self._obj.position, ...)` in the dispatch
branch of `method`. -/
def kinematicsApply (name : String) (pose : PoseArrays) : KVal :=
  KVal.computed name pose

/-- The AttributeError message raised by `method` for an unrecognized name. -/
def attrErrMsg (name : String) : String :=
  "'MoveAccessor' object has no attribute '" ++ name ++ "'"

/-- The test `name.startswith("compute_")` of `method`. -/
def startsWithCompute (name : String) : Bool :=
  "compute_".data.isPrefixOf name.data

/-- The guard of the dispatch branch of `method`:
`name.startswith("compute_") and hasattr(kinematics, name)`. -/
def isKinDispatch (name : String) : Bool :=
  startsWithCompute name && decide (name ∈ kinematics_names)

/-- Outcome of invoking the callable returned by `__getattr__`. -/
inductive CallResult where
  | value (v : KVal)
  | attributeError (msg : String)
  | validationError (e : WrappedErr)
deriving DecidableEq, Repr

/-- Everything observable about one invocation of the returned `method`:
its outcome, the dataset afterwards, and how many times it ran `validate`
and the kinematics computation. -/
structure CallOut where
  result : CallResult
  dsAfter : Dataset
  validations : Nat
  computations : Nat
deriving DecidableEq, Repr

/-- Invoking the `method` closure returned by `__getattr__` for `name` on a
dataset: in the dispatch branch it first runs `self.validate()` and then the
kinematics function on the position data; otherwise it raises
AttributeError. The source assigns nothing to the dataset, so the dataset
after the call is the dataset before it. -/
def methodCallT (name : String) (ds : Dataset) : CallOut :=
  if isKinDispatch name then
    match validate ds with
    | some e => ⟨CallResult.validationError e, ds, 1, 0⟩
    | none => ⟨CallResult.value (kinematicsApply name ds.pose), ds, 1, 1⟩
  else ⟨CallResult.attributeError (attrErrMsg name), ds, 0, 0⟩

/-- The invocation outcome alone. -/
def methodCall (name : String) (ds : Dataset) : CallResult :=
  (methodCallT name ds).result

/-- A dataset shaped like the sample DLC dataset the tests load: all four
required dimensions, both required data variables, consistent shapes and
labels, a positive fps and a recognized source software. -/
def goodPose : PoseArrays := ⟨[2, 1, 1, 2], [2, 1, 1], ["individual_0"], ["snout"]⟩

/-- A dataset passing every validation check. -/
def goodDs : Dataset := ⟨dim_names, var_names, some 30, some "DeepLabCut", goodPose⟩

/-- A dataset whose `time` dimension is absent. -/
def dsNoTime : Dataset := ⟨["individuals", "keypoints", "space"], var_names, none, none, goodPose⟩

/-- A dataset whose `position` data variable is absent. -/
def dsNoPosition : Dataset := ⟨dim_names, ["confidence"], none, none, goodPose⟩

/-- A dataset with a non-positive fps attribute. -/
def dsBadFps : Dataset := ⟨dim_names, var_names, some 0, none, goodPose⟩






/-- One entry of the sample-file metadata registry (a record of the loaded
poses_files_metadata.yaml in sample_data.py). -/
structure SampleMetadata where
  file_name : String
  sha256sum : String
  source_software : String
deriving DecidableEq, Repr

/-- Outcome of `fetch_sample_data`: a loaded dataset, or the
UnboundLocalError Python raises at `return ds` when no branch assigned
`ds`. -/
inductive FetchOutcome where
  | dataset (d : Dataset)
  | unboundLocalError (varName : String)
deriving DecidableEq, Repr

/-- The loader dispatch of `fetch_sample_data` in sample_data.py, given the
metadata entry found for the requested file and the fetched file path. The
format loaders (`load_poses.from_sleap_file` and friends) are external
collaborators, passed in as functions. The chain of `if`/`elif` branches
has no `else`: when none matches, `return ds` reads an unassigned local. -/
def fetch_sample_data (loadSleap loadDlc loadLp : String → Dataset)
    (meta : SampleMetadata) (filePath : String) : FetchOutcome :=
  if meta.source_software = "SLEAP" then FetchOutcome.dataset (loadSleap filePath)
  else if meta.source_software = "DeepLabCut" then FetchOutcome.dataset (loadDlc filePath)
  else if meta.source_software = "LightningPose" then FetchOutcome.dataset (loadLp filePath)
  else FetchOutcome.unboundLocalError "ds"

/-- Position and confidence data of a pose dataset with concrete values, as
the filtering module operates on them: `pos t i k s` is the position value
at time `t`, individual `i`, keypoint `k`, space component `s` (`none` is
the missing-value marker NaN), and `conf t i k` the confidence score. -/
structure Tracks where
  nTime : Nat
  nInd : Nat
  nKey : Nat
  nSpace : Nat
  pos : Nat → Nat → Nat → Nat → Option Rat
  conf : Nat → Nat → Nat → Rat

/-- All (time, individual) index pairs of the dataset. -/
def pairsTI (ds : Tracks) : List (Nat × Nat) :=
  (List.range ds.nTime).flatMap (fun t => (List.range ds.nInd).map (fun i => (t, i)))

/-- Number of missing position values for keypoint `k`, space component `s`
(what `np.count_nonzero(np.isnan(...))` computes in the tests for one
keypoint and one space column). -/
def countMissingKS (ds : Tracks) (k s : Nat) : Nat :=
  (pairsTI ds).countP (fun p => (ds.pos p.1 p.2 k s).isNone)

/-- Number of (time, individual) pairs whose confidence for keypoint `k` is
below the threshold. -/
def countBelowK (ds : Tracks) (thr : Rat) (k : Nat) : Nat :=
  (pairsTI ds).countP (fun p => decide (ds.conf p.1 p.2 k < thr))

/-- Modelled from the spec: `filter_by_confidence`
(movement/filtering.py is not under src/; only its tests are). Per the
spec's Filtering Module contract: given a confidence threshold, for every
(time, individual, keypoint) triple where confidence is below threshold,
the corresponding position values are replaced with the missing-value
marker across the space axis. -/
def filter_by_confidence (thr : Rat) (ds : Tracks) : Tracks :=
  { ds with pos := fun t i k s => if ds.conf t i k < thr then none else ds.pos t i k s }

/-- Index of the nearest valid value strictly before `t` in the series `v`. -/
def findPrev (v : Nat → Option Rat) (t : Nat) : Option Nat :=
  (List.range t).reverse.find? (fun u => (v u).isSome)

/-- Index of the nearest valid value strictly after `t` (below `n`) in `v`. -/
def findNext (v : Nat → Option Rat) (n t : Nat) : Option Nat :=
  ((List.range n).drop (t + 1)).find? (fun u => (v u).isSome)

/-- Whether a gap between valid indices `p < q` is within the configured
bound (`none` = unbounded interpolation, the default). -/
def gapOK : Option Nat → Nat → Nat → Bool
  | none, _, _ => true
  | some g, p, q => decide (q - p - 1 ≤ g)

/-- Linear interpolation between the values at indices `p` and `q`,
evaluated at index `t`. -/
def lerpQ (xp xq : Rat) (p q t : Nat) : Rat :=
  xp + (xq - xp) * (((t : Rat) - (p : Rat)) / ((q : Rat) - (p : Rat)))

/-- One time series after interpolation: a valid sample is kept; a missing
sample is filled linearly from its nearest valid neighbours when both exist
and the gap is within the bound, else left missing. -/
def interpSeries (n : Nat) (maxGap : Option Nat) (v : Nat → Option Rat) (t : Nat) : Option Rat :=
  match v t with
  | some x => some x
  | none =>
    match findPrev v t, findNext v n t with
    | some p, some q =>
      if gapOK maxGap p q then some (lerpQ ((v p).getD 0) ((v q).getD 0) p q t) else none
    | some _, none => none
    | none, _ => none

/-- Modelled from the spec: `interpolate_over_time` (movement/filtering.py
is not under src/; only its tests are). Per the spec's Filtering Module
contract: fills missing-value gaps along the time axis per
(individual, keypoint, space-component) independently with the linear
policy; gaps longer than a configurable limit are left unfilled
(`maxGap = none` is the unbounded default the tests call). -/
def interpolate_over_time (maxGap : Option Nat) (ds : Tracks) : Tracks :=
  { ds with pos := fun t i k s => interpSeries ds.nTime maxGap (fun u => ds.pos u i k s) t }

/-- All (time, individual, keypoint, space) index tuples of the dataset. -/
def allIdx (ds : Tracks) : List (Nat × Nat × Nat × Nat) :=
  (List.range ds.nTime).flatMap (fun t =>
    (List.range ds.nInd).flatMap (fun i =>
      (List.range ds.nKey).flatMap (fun k =>
        (List.range ds.nSpace).map (fun s => (t, i, k, s)))))

/-- Total number of missing position values in the dataset. -/
def count_missing (ds : Tracks) : Nat :=
  (allIdx ds).countP (fun q => (ds.pos q.1 q.2.1 q.2.2.1 q.2.2.2).isNone)

/-- Whether the series through (i, k, s) has a finite-length gap at time
`t`: a missing sample with a valid sample somewhere before it and somewhere
after it along the time axis. -/
def finiteGapAt (ds : Tracks) (t i k s : Nat) : Bool :=
  (ds.pos t i k s).isNone
    && (findPrev (fun u => ds.pos u i k s) t).isSome
    && (findNext (fun u => ds.pos u i k s) ds.nTime t).isSome

/-- Whether the dataset contains at least one finite-length gap along the
time axis. -/
def hasFiniteGap (ds : Tracks) : Bool :=
  (allIdx ds).any (fun q => finiteGapAt ds q.1 q.2.1 q.2.2.1 q.2.2.2)

/-- One entry of the operation log kept in the dataset attributes:
the operation name and the recorded arguments (key, rendered value). -/
structure LogEntry where
  operation : String
  params : List (String × String)
deriving DecidableEq, Repr

/-- A dataset together with the operation log in its attributes. -/
structure DSWithLog where
  ds : Dataset
  log : List LogEntry
deriving DecidableEq, Repr

/-- Modelled from the spec: the `log_to_attrs` decorator
(movement/filtering.py is not under src/; only its tests are). Per the
spec's Filtering Module contract: it wraps a transformation function
taking a dataset, positional arguments and keyword arguments; after the
wrapped function returns, it appends to the returned dataset's operation
log one entry recording the function name, the positional argument values
(keyed `arg_1`, `arg_2`, ...) and the keyword arguments. -/
def log_to_attrs (fname : String)
    (f : DSWithLog → List String → List (String × String) → DSWithLog)
    (d : DSWithLog) (args : List String) (kwargs : List (String × String)) : DSWithLog :=
  let out := f d args kwargs
  let entry : LogEntry :=
    ⟨fname, (args.enum.map (fun p => ("arg_" ++ toString (p.1 + 1), p.2))) ++ kwargs⟩
  { out with log := out.log ++ [entry] }

/-- A tiny concrete track set: one individual, one keypoint, two space
components, three frames, with a low-confidence middle frame. -/
def smallTracks : Tracks :=
  ⟨3, 1, 1, 2, fun _ _ _ _ => some 0, fun t _ _ => if t = 1 then 0 else 2⟩

/-- The small track set after confidence filtering at threshold 1. -/
def smallFiltered : Tracks := filter_by_confidence 1 smallTracks

/-- A metadata entry whose source software is none of the recognized three. -/
def unknownMeta : SampleMetadata :=
  ⟨"mouse.analysis.csv", "0000", "Anipose"⟩

/-- Some validation check failed on the dataset: a required dimension is
absent, a required data variable is absent, or the pose-schema construction
raises. -/
def anyCheckFails (ds : Dataset) : Prop :=
  missing_dims ds ≠ [] ∨ missing_vars ds ≠ [] ∨ ValidPosesDataset ds ≠ none

/-- The error `c` is the first constraint actually violated on `ds`: the
missing-dimensions error exactly when dimensions are missing, the
missing-variables error exactly when no dimension is missing but a variable
is, and otherwise the exception the pose-schema construction raises. -/
def IsCause (ds : Dataset) (c : VErr) : Prop :=
  (c = VErr.missingDims (missing_dims ds) ∧ missing_dims ds ≠ []) ∨
  (c = VErr.missingVars (missing_vars ds) ∧ missing_dims ds = [] ∧ missing_vars ds ≠ []) ∨
  (ValidPosesDataset ds = some c ∧ missing_dims ds = [] ∧ missing_vars ds = [])

/-- Helper: membership in the (time, individual) index list. -/
theorem mem_pairsTI (ds : Tracks) (p : Nat × Nat) :
    p ∈ pairsTI ds ↔ p.1 < ds.nTime ∧ p.2 < ds.nInd := by
  cases p with
  | mk t i => simp [pairsTI, List.mem_flatMap, List.mem_map, List.mem_range]

/-- Helper: a list has strictly fewer elements satisfying `p` than `q` when
`p` implies `q` on the list and some member satisfies `q` but not `p`. -/
theorem countP_strict {α : Type} (p q : α → Bool) :
    ∀ l : List α, (∀ x ∈ l, p x = true → q x = true) →
      ∀ x ∈ l, p x = false → q x = true → l.countP p < l.countP q := by
  intro l
  induction l with
  | nil => intro _ x hx; cases hx
  | cons a l ih =>
    intro hmono x hx hpx hqx
    have htail : ∀ y ∈ l, p y = true → q y = true :=
      fun y hy => hmono y (List.mem_cons_of_mem a hy)
    rw [List.countP_cons, List.countP_cons]
    rcases List.mem_cons.mp hx with hxa | hxl
    · have hpa : p a = false := hxa ▸ hpx
      have hqa : q a = true := hxa ▸ hqx
      have hle : l.countP p ≤ l.countP q := List.countP_mono_left htail
      rw [hpa, hqa]
      simp only [Bool.false_eq_true, if_false, if_true]
      omega
    · have hlt : l.countP p < l.countP q := ih htail x hxl hpx hqx
      have hif : (if p a then 1 else 0) ≤ (if q a then 1 else 0) := by
        by_cases hpa : p a = true
        · rw [if_pos hpa, if_pos (hmono a (List.mem_cons_self a l) hpa)]
        · rw [if_neg hpa]
          omega
      omega

/-- Helper: interpolation never introduces a missing value. -/
theorem interpSeries_isNone_imp (n : Nat) (g : Option Nat) (v : Nat → Option Rat) (t : Nat) :
    (interpSeries n g v t).isNone = true → (v t).isNone = true := by
  unfold interpSeries
  cases hv : v t with
  | some x => simp
  | none => simp

/-- Helper: with the unbounded gap policy, a missing sample with valid
neighbours on both sides is filled. -/
theorem interpSeries_fills (n : Nat) (v : Nat → Option Rat) (t : Nat)
    (hN : (v t).isNone = true)
    (hp : (findPrev v t).isSome = true)
    (hq : (findNext v n t).isSome = true) :
    (interpSeries n none v t).isSome = true := by
  obtain ⟨p, hps⟩ := Option.isSome_iff_exists.mp hp
  obtain ⟨q, hqs⟩ := Option.isSome_iff_exists.mp hq
  have hv : v t = none := Option.isNone_iff_eq_none.mp hN
  unfold interpSeries
  rw [hv, hps, hqs]
  simp [gapOK]

/-- C1: the spec and the accessor's own docstring state that the first
access to a derived property stores the result as a data variable on the
dataset and that a second access returns the stored field without running
validation or the computation again. The code does neither: on a valid
dataset, one invocation for `compute_displacement` runs validation and the
kinematics computation once, stores nothing on the dataset, and the second
invocation runs both again. -/
theorem C1_recomputes_and_stores_nothing :
    (methodCallT "compute_displacement" goodDs).computations = 1 ∧
    (methodCallT "compute_displacement" goodDs).validations = 1 ∧
    (methodCallT "compute_displacement" goodDs).dsAfter = goodDs ∧
    "compute_displacement" ∉ (methodCallT "compute_displacement" goodDs).dsAfter.data_vars ∧
    "displacement" ∉ (methodCallT "compute_displacement" goodDs).dsAfter.data_vars ∧
    (methodCallT "compute_displacement"
      (methodCallT "compute_displacement" goodDs).dsAfter).computations = 1 ∧
    (methodCallT "compute_displacement"
      (methodCallT "compute_displacement" goodDs).dsAfter).validations = 1 := by
  decide

/-- C2 counterexample: `foo` is not a derivable kinematic quantity and is
not a data variable of the dataset, yet accessing it through the accessor
does not fail: `__getattr__` returns the `method` callable and no
attribute-not-found error is surfaced at access time. -/
theorem C2_access_does_not_fail_immediately :
    moveGetattr "foo" = AttrOutcome.callable "foo" ∧
    (∀ msg, moveGetattr "foo" ≠ AttrOutcome.accessError msg) ∧
    isKinDispatch "foo" = false ∧
    "foo" ∉ goodDs.data_vars := by
  refine ⟨rfl, ?_, by decide, by decide⟩
  intro msg h
  simp [moveGetattr] at h

/-- C2 amended: for a name that is not a derivable kinematic quantity and
not a data variable of the dataset, attribute access returns a callable,
and the attribute-not-found error is raised when that callable is invoked
(no retry). -/
theorem C2_error_raised_at_invocation (name : String) (ds : Dataset)
    (hk : isKinDispatch name = false) (hv : name ∉ ds.data_vars) :
    moveGetattr name = AttrOutcome.callable name ∧
    methodCall name ds = CallResult.attributeError (attrErrMsg name) := by
  refine ⟨rfl, ?_⟩
  unfold methodCall methodCallT
  rw [hk]
  rfl

/-- C2 witness: the amended statement evaluated at the name `foo` on the
valid sample dataset. -/
theorem C2_error_raised_at_invocation_witness :
    moveGetattr "foo" = AttrOutcome.callable "foo" ∧
    methodCall "foo" goodDs = CallResult.attributeError (attrErrMsg "foo") :=
  C2_error_raised_at_invocation "foo" goodDs (by decide) (by decide)

/-- C5: a derived-property request (validation included) leaves the dataset
unchanged whether it succeeds or fails, and afterwards any other property
request behaves exactly as it would have on the original dataset. -/
theorem C5_requests_leave_dataset_unchanged (name : String) (ds : Dataset) :
    (methodCallT name ds).dsAfter = ds ∧
    (∀ name2, methodCallT name2 (methodCallT name ds).dsAfter = methodCallT name2 ds) := by
  have h : (methodCallT name ds).dsAfter = ds := by
    unfold methodCallT
    split
    · cases validate ds <;> rfl
    · rfl
  exact ⟨h, fun name2 => by rw [h]⟩

/-- C10: the loader dispatch of `fetch_sample_data` returns a loaded
dataset exactly when the metadata names SLEAP, DeepLabCut or LightningPose
as the source software; any other value falls through every branch and the
function fails with an unbound-variable error on `ds`, not a descriptive
message. -/
theorem C10_fetch_dispatch (loadSleap loadDlc loadLp : String → Dataset)
    (meta : SampleMetadata) (filePath : String) :
    ((∃ d, fetch_sample_data loadSleap loadDlc loadLp meta filePath = FetchOutcome.dataset d)
      ↔ meta.source_software ∈ recognized_software) ∧
    (meta.source_software ∉ recognized_software →
      fetch_sample_data loadSleap loadDlc loadLp meta filePath
        = FetchOutcome.unboundLocalError "ds") := by
  unfold fetch_sample_data recognized_software
  by_cases h1 : meta.source_software = "SLEAP" <;>
    by_cases h2 : meta.source_software = "DeepLabCut" <;>
      by_cases h3 : meta.source_software = "LightningPose" <;>
        simp [h1, h2, h3]

/-- C10 witness: a metadata entry naming Anipose as source software makes
`fetch_sample_data` end in the unbound-variable error. -/
theorem C10_fetch_dispatch_witness :
    fetch_sample_data (fun _ => goodDs) (fun _ => goodDs) (fun _ => goodDs) unknownMeta "p"
      = FetchOutcome.unboundLocalError "ds" :=
  (C10_fetch_dispatch (fun _ => goodDs) (fun _ => goodDs) (fun _ => goodDs)
    unknownMeta "p").2 (by decide)

/-- C3: whenever any validation check fails — missing dimension, missing
data variable, or a violated pose-schema constraint — `validate` produces
exactly one wrapped error whose caller-visible message is the single
coherent message, with the first violated constraint preserved as the
cause. -/
theorem C3_single_wrapped_error (ds : Dataset) (h : anyCheckFails ds) :
    ∃ c, validate ds = some ⟨invalid_poses_msg, c⟩ ∧ IsCause ds c := by
  unfold validate validateWith
  by_cases h1 : missing_dims ds = []
  · by_cases h2 : missing_vars ds = []
    · have h3 : ValidPosesDataset ds ≠ none := by
        rcases h with hd | hv | hp
        · exact absurd h1 hd
        · exact absurd h2 hv
        · exact hp
      obtain ⟨e, he⟩ := Option.ne_none_iff_exists'.mp h3
      rw [if_neg (fun hc => hc h1), if_neg (fun hc => hc h2), he]
      exact ⟨e, rfl, Or.inr (Or.inr ⟨he, h1, h2⟩)⟩
    · rw [if_neg (fun hc => hc h1), if_pos h2]
      exact ⟨_, rfl, Or.inr (Or.inl ⟨rfl, h1, h2⟩)⟩
  · rw [if_pos h1]
    exact ⟨_, rfl, Or.inl ⟨rfl, h1⟩⟩

/-- C3 witness: on the dataset with a non-positive fps, `validate` fails
with the wrapped message and the violated fps constraint as the cause. -/
theorem C3_single_wrapped_error_witness :
    ∃ c, validate dsBadFps = some ⟨invalid_poses_msg, c⟩ ∧ IsCause dsBadFps c :=
  C3_single_wrapped_error dsBadFps (Or.inr (Or.inr (by decide)))

/-- C4: missing required dimensions or data variables are detected before
the pose-schema check (which is what extracts the fields) ever runs — the
outcome is the same for every possible check — and the cause's payload
names exactly the required names absent from the dataset. -/
theorem C4_presence_checked_first (ds : Dataset) :
    (missing_dims ds ≠ [] →
      (∀ check, validateWith check ds
          = some ⟨invalid_poses_msg, VErr.missingDims (missing_dims ds)⟩) ∧
      (∀ d, d ∈ missing_dims ds ↔ d ∈ dim_names ∧ d ∉ ds.dims)) ∧
    (missing_dims ds = [] → missing_vars ds ≠ [] →
      (∀ check, validateWith check ds
          = some ⟨invalid_poses_msg, VErr.missingVars (missing_vars ds)⟩) ∧
      (∀ v, v ∈ missing_vars ds ↔ v ∈ var_names ∧ v ∉ ds.data_vars)) := by
  constructor
  · intro h1
    constructor
    · intro check
      unfold validateWith
      rw [if_pos h1]
    · intro d
      simp [missing_dims]
  · intro h1 h2
    constructor
    · intro check
      unfold validateWith
      rw [if_neg (fun hc => hc h1), if_pos h2]
    · intro v
      simp [missing_vars]

/-- C4 witness: removing `time` yields the missing-dimensions cause naming
exactly `time`; removing `position` yields the missing-variables cause
naming exactly `position`. -/
theorem C4_presence_checked_first_witness :
    validate dsNoTime = some ⟨invalid_poses_msg, VErr.missingDims ["time"]⟩ ∧
    validate dsNoPosition = some ⟨invalid_poses_msg, VErr.missingVars ["position"]⟩ := by
  constructor
  · have h := ((C4_presence_checked_first dsNoTime).1 (by decide)).1 ValidPosesDataset
    have e : missing_dims dsNoTime = ["time"] := by decide
    unfold validate
    rw [h, e]
  · have h := ((C4_presence_checked_first dsNoPosition).2 (by decide) (by decide)).1
      ValidPosesDataset
    have e : missing_vars dsNoPosition = ["position"] := by decide
    unfold validate
    rw [h, e]

/-- C9: attribute access through the accessor's fallback lookup never
raises — it always returns the `method` callable. Only on invocation does
dispatch happen: when the name starts with `compute_` and the kinematics
module defines it, validation runs first (exactly once, and on validation
failure the computation never runs); for any other name, the invocation —
not the access — raises the attribute-not-found error. -/
theorem C9_deferred_dispatch (name : String) (ds : Dataset) :
    moveGetattr name = AttrOutcome.callable name ∧
    (isKinDispatch name = true →
      (methodCallT name ds).validations = 1 ∧
      (validate ds = none →
        methodCall name ds = CallResult.value (kinematicsApply name ds.pose)) ∧
      (∀ e, validate ds = some e →
        methodCall name ds = CallResult.validationError e ∧
        (methodCallT name ds).computations = 0)) ∧
    (isKinDispatch name = false →
      methodCall name ds = CallResult.attributeError (attrErrMsg name) ∧
      (methodCallT name ds).validations = 0) := by
  refine ⟨rfl, ?_, ?_⟩
  · intro hk
    refine ⟨?_, ?_, ?_⟩
    · unfold methodCallT
      rw [if_pos hk]
      cases hv : validate ds <;> rfl
    · intro hv
      unfold methodCall methodCallT
      rw [if_pos hk, hv]
    · intro e hv
      unfold methodCall methodCallT
      rw [if_pos hk, hv]
      exact ⟨rfl, rfl⟩
  · intro hk
    have hk2 : ¬ isKinDispatch name = true := by
      rw [hk]
      exact Bool.false_ne_true
    unfold methodCall methodCallT
    rw [if_neg hk2]
    exact ⟨rfl, rfl⟩

/-- C9 witness: accessing `foo` returns a callable; invoking the callable
for `compute_velocity` on the valid dataset computes the value; invoking
the one for `foo` raises the attribute-not-found error. -/
theorem C9_deferred_dispatch_witness :
    moveGetattr "foo" = AttrOutcome.callable "foo" ∧
    methodCall "compute_velocity" goodDs
      = CallResult.value (kinematicsApply "compute_velocity" goodDs.pose) ∧
    methodCall "foo" goodDs = CallResult.attributeError (attrErrMsg "foo") := by
  refine ⟨(C9_deferred_dispatch "foo" goodDs).1, ?_, ?_⟩
  · exact ((C9_deferred_dispatch "compute_velocity" goodDs).2.1 (by decide)).2.1 (by decide)
  · exact ((C9_deferred_dispatch "foo" goodDs).2.2 (by decide)).1

/-- C6: the confidence filter marks as missing exactly the positions of
(time, individual, keypoint) triples whose confidence is below the
threshold (a position already missing stays missing), so on a dataset with
no missing positions for a keypoint, the missing-value count for that
keypoint after filtering equals the count of its below-threshold triples. -/
theorem C6_confidence_filter_counts (ds : Tracks) (thr : Rat) (k s : Nat)
    (hclean : ∀ t i, t < ds.nTime → i < ds.nInd → (ds.pos t i k s).isSome = true) :
    (∀ t i, (filter_by_confidence thr ds).pos t i k s = none ↔
        (ds.conf t i k < thr ∨ ds.pos t i k s = none)) ∧
    countMissingKS (filter_by_confidence thr ds) k s = countBelowK ds thr k := by
  constructor
  · intro t i
    by_cases h : ds.conf t i k < thr
    · simp [filter_by_confidence, h]
    · simp [filter_by_confidence, h]
  · unfold countMissingKS countBelowK
    apply List.countP_congr
    intro p hp2
    obtain ⟨ht, hi⟩ := (mem_pairsTI ds p).1 hp2
    by_cases h : ds.conf p.1 p.2 k < thr
    · simp [filter_by_confidence, h]
    · obtain ⟨x, hx⟩ := Option.isSome_iff_exists.mp (hclean p.1 p.2 ht hi)
      simp [filter_by_confidence, h, hx]

/-- C6 witness: on the small dataset with no missing positions, filtering
at threshold 1 yields exactly as many missing values for the keypoint as
there are below-threshold triples, namely 1. -/
theorem C6_confidence_filter_counts_witness :
    countMissingKS (filter_by_confidence 1 smallTracks) 0 0 = countBelowK smallTracks 1 0 ∧
    countMissingKS (filter_by_confidence 1 smallTracks) 0 0 = 1 :=
  ⟨(C6_confidence_filter_counts smallTracks 1 0 0 (fun _ _ _ _ => rfl)).2, by decide⟩

/-- C7: time interpolation never increases the number of missing values,
for every dataset and every gap bound; and with the default unbounded
policy the count strictly decreases whenever the dataset contains at least
one finite-length gap along the time axis. -/
theorem C7_interpolation_monotone (ds : Tracks) (maxGap : Option Nat) :
    count_missing (interpolate_over_time maxGap ds) ≤ count_missing ds ∧
    (hasFiniteGap ds = true →
      count_missing (interpolate_over_time none ds) < count_missing ds) := by
  constructor
  · unfold count_missing
    apply List.countP_mono_left
    intro x _ h
    exact interpSeries_isNone_imp ds.nTime maxGap
      (fun u => ds.pos u x.2.1 x.2.2.1 x.2.2.2) x.1 h
  · intro hgap
    obtain ⟨x, hx, hfin⟩ := List.any_eq_true.mp hgap
    obtain ⟨⟨hN, hp⟩, hq⟩ : ((ds.pos x.1 x.2.1 x.2.2.1 x.2.2.2).isNone = true ∧
        (findPrev (fun u => ds.pos u x.2.1 x.2.2.1 x.2.2.2) x.1).isSome = true) ∧
        (findNext (fun u => ds.pos u x.2.1 x.2.2.1 x.2.2.2) ds.nTime x.1).isSome = true := by
      simpa [finiteGapAt, Bool.and_eq_true] using hfin
    have hfill := interpSeries_fills ds.nTime
      (fun u => ds.pos u x.2.1 x.2.2.1 x.2.2.2) x.1 hN hp hq
    obtain ⟨y, hy⟩ := Option.isSome_iff_exists.mp hfill
    unfold count_missing
    refine countP_strict _ _ (allIdx ds) ?_ x hx ?_ ?_
    · intro z _ h
      exact interpSeries_isNone_imp ds.nTime none
        (fun u => ds.pos u z.2.1 z.2.2.1 z.2.2.2) z.1 h
    · show (interpSeries ds.nTime none
        (fun u => ds.pos u x.2.1 x.2.2.1 x.2.2.2) x.1).isNone = false
      rw [hy]
      rfl
    · exact hN

/-- C7 witness: the small filtered dataset has a finite gap; unbounded
interpolation strictly reduces its missing-value count (from 2 to 0). -/
theorem C7_interpolation_monotone_witness :
    count_missing (interpolate_over_time none smallFiltered) < count_missing smallFiltered ∧
    count_missing smallFiltered = 2 ∧
    count_missing (interpolate_over_time none smallFiltered) = 0 :=
  ⟨(C7_interpolation_monotone smallFiltered none).2 (by decide), by decide, by decide⟩

/-- C8: after invoking a decorated transformation with one positional and
one keyword argument, the returned dataset's operation log is the wrapped
call's log with exactly one appended entry whose operation name is the
wrapped function's name and whose recorded values are the values passed. -/
theorem C8_log_decorator (fname : String)
    (f : DSWithLog → List String → List (String × String) → DSWithLog)
    (d : DSWithLog) (a kwName kwVal : String) :
    (log_to_attrs fname f d [a] [(kwName, kwVal)]).log
        = (f d [a] [(kwName, kwVal)]).log ++ [⟨fname, [("arg_1", a), (kwName, kwVal)]⟩] ∧
    (log_to_attrs fname f d [a] [(kwName, kwVal)]).log.length
        = (f d [a] [(kwName, kwVal)]).log.length + 1 ∧
    (log_to_attrs fname f d [a] [(kwName, kwVal)]).log.getLast?
        = some ⟨fname, [("arg_1", a), (kwName, kwVal)]⟩ := by
  have hlog : (log_to_attrs fname f d [a] [(kwName, kwVal)]).log
      = (f d [a] [(kwName, kwVal)]).log ++ [⟨fname, [("arg_1", a), (kwName, kwVal)]⟩] := by
    unfold log_to_attrs
    simp [List.enum, List.enumFrom]
    rfl
  refine ⟨hlog, ?_, ?_⟩
  · rw [hlog, List.length_append]
    rfl
  · rw [hlog, List.getLast?_concat]


end Movement
